import Mathlib

/-!
Verification of the user-administration screen `src/modules/Users.jsx` of
friendship-admin: its modal-dialog state machine and its REST dispatch layer,
embedded shallowly.

The component's local state (`Users.state`) is `UsersState`; the handlers
(`openDeleteModal`, `openBanModal`, `openScopeModal`, the dialog `submit` and
`close` callbacks, the row buttons) become a step function on that state which
also returns the list of Redux dispatches the handler issues.  Each dispatch
carries the actions its completion callback would dispatch in turn
(`onComplete`), modelling the nested `dispatch(..., () => dispatch(...))`
pattern of `mapDispatchToProps`.
-/

namespace FriendshipAdmin

/-- A user record as rendered by the screen (fields the component reads). -/
structure User where
  id : Nat
  email : String
  scope : String
  active : Bool
  description : String
  deriving DecidableEq, Repr

/-- The `banInfo.expire` sub-record of the component state. -/
structure BanExpire where
  amount : String
  indicator : String
  deriving DecidableEq, Repr

/-- The `banInfo` sub-record of the component state. -/
structure BanInfo where
  reason : String
  expire : BanExpire
  deriving DecidableEq, Repr

/-- The body sent with `rest.actions.banUser`: `{ reason, expire }`. -/
structure BanBody where
  reason : String
  expire : String
  deriving DecidableEq, Repr

/-- Bodies sent through `updateUser` (`{active: v}` from the row switch,
`{scope: s}` from the scope dialog; the stored `scope` may be null). -/
inductive PatchBody where
  | active (value : Bool)
  | scope (value : Option String)
  deriving DecidableEq, Repr

/-- The REST-client actions the component dispatches. -/
inductive Action where
  | users
  | userDetails (userId : Nat)
  | userDetailsDelete (userId : Nat)
  | banUser (userId : Nat) (body : BanBody)
  | userDetailsPatch (userId : Nat) (body : PatchBody)
  deriving DecidableEq, Repr

/-- One dispatched REST action, together with the actions its completion
callback dispatches when the remote call finishes. -/
structure Dispatch where
  action : Action
  onComplete : List Action
  deriving DecidableEq, Repr

/-- `refresh` from `mapDispatchToProps`: dispatch `rest.actions.users()`. -/
def refresh : List Dispatch := [⟨Action.users, []⟩]

/-- `refreshUser` from `mapDispatchToProps`. -/
def refreshUser (user : User) : List Dispatch :=
  [⟨Action.userDetails user.id, []⟩]

/-- `deleteUser` from `mapDispatchToProps`: delete, then refresh the list from
the completion callback. -/
def deleteUser (user : User) : List Dispatch :=
  [⟨Action.userDetailsDelete user.id, [Action.users]⟩]

/-- The expiry token computed inside `banUser`:
`banInfo.expire.amount === '' || banInfo.expire.indicator === '' ? 'x'
 : banInfo.expire.amount + ':' + banInfo.expire.indicator`. -/
def banExpireToken (banInfo : BanInfo) : String :=
  if banInfo.expire.amount = "" ∨ banInfo.expire.indicator = "" then "x"
  else banInfo.expire.amount ++ ":" ++ banInfo.expire.indicator

/-- `banUser` from `mapDispatchToProps`: ban with `{reason, expire}`, then
refresh the list from the completion callback. -/
def banUser (user : User) (banInfo : BanInfo) : List Dispatch :=
  [⟨Action.banUser user.id ⟨banInfo.reason, banExpireToken banInfo⟩, [Action.users]⟩]

/-- `updateUser` from `mapDispatchToProps`: patch, then refresh the list from
the completion callback. -/
def updateUser (user : User) (update : PatchBody) : List Dispatch :=
  [⟨Action.userDetailsPatch user.id update, [Action.users]⟩]

/-- The component's local state.  The source's initial state object carries a
stray `openScopeModal: false` key (a misspelling of `scopeDialogOpen`, shadowed
by the method of the same name and never read); the key `scopeDialogOpen`
itself is absent (JS `undefined`) until first written, so it is modelled as an
`Option Bool` that starts `none`. -/
structure UsersState where
  dialogOpen : Bool
  deleteUserDialogOpen : Bool
  banUserDialogOpen : Bool
  openScopeModal : Bool
  scopeDialogOpen : Option Bool
  tempUserForDialogs : Option User
  scope : Option String
  banInfo : BanInfo
  deriving DecidableEq, Repr

/-- The initial `banInfo` value. -/
def initialBanInfo : BanInfo := ⟨"", ⟨"", ""⟩⟩

/-- `Users.state` as initialised in the class body. -/
def initialState : UsersState :=
  { dialogOpen := false
    deleteUserDialogOpen := false
    banUserDialogOpen := false
    openScopeModal := false
    scopeDialogOpen := none
    tempUserForDialogs := none
    scope := none
    banInfo := initialBanInfo }

/-- JS truthiness of `this.state.scopeDialogOpen` as passed to the scope
dialog's `isOpen` prop: `undefined` counts as closed. -/
def scopeIsOpen (s : UsersState) : Bool := s.scopeDialogOpen.getD false

/-- No dialog is showing. -/
def allClosed (s : UsersState) : Bool :=
  !s.dialogOpen && !s.deleteUserDialogOpen && !s.banUserDialogOpen && !(scopeIsOpen s)

/-- How many of the four dialog `isOpen` props are truthy. -/
def openCount (s : UsersState) : Nat :=
  (if s.dialogOpen then 1 else 0) + (if s.deleteUserDialogOpen then 1 else 0) +
    (if s.banUserDialogOpen then 1 else 0) + (if scopeIsOpen s then 1 else 0)

/-- `openDeleteModal`: set only its own flag and the shared subject. -/
def openDeleteModal (s : UsersState) (user : User) : UsersState :=
  { s with
    deleteUserDialogOpen := true
    tempUserForDialogs := some user }

/-- `openBanModal`: set only its own flag and the shared subject. -/
def openBanModal (s : UsersState) (user : User) : UsersState :=
  { s with
    banUserDialogOpen := true
    tempUserForDialogs := some user }

/-- `openScopeModal` (the method, which writes the correctly spelled
`scopeDialogOpen` key): set its flag, the shared subject and the pending scope. -/
def openScopeModal (s : UsersState) (user : User) (scope : String) : UsersState :=
  { s with
    scopeDialogOpen := some true
    tempUserForDialogs := some user
    scope := some scope }

/-- `componentDidMount` calls `this.props.refresh()` and nothing else. -/
def componentDidMount : List Dispatch := refresh

/-- The user-interaction events the rendered markup can deliver to the
component: row-level buttons and the four dialogs' field edits, submits and
closes. -/
inductive Event where
  | showDetails (user : User)
  | clickDelete (user : User)
  | clickBan (user : User)
  | changeScope (user : User) (newScope : String)
  | toggleActive (user : User) (checked : Bool)
  | editBanAmount (value : String)
  | editBanIndicator (value : String)
  | detailSubmit
  | detailClose
  | deleteSubmit
  | deleteClose
  | banSubmit (reasonText : String)
  | banClose
  | scopeSubmit
  | scopeClose
  deriving DecidableEq, Repr

/-- One event-handler execution: the new local state and the dispatches the
handler issues.  `none` marks the handlers that would throw a `TypeError` in
the source (a mutating submit reading `this.state.tempUserForDialogs` when it
is null); no theorem below depends on those branches. -/
def step (s : UsersState) (e : Event) : Option (UsersState × List Dispatch) :=
  match e with
  | Event.showDetails user =>
      -- onClick: refreshUser(user); setState({ dialogOpen: true }) — the
      -- subject is NOT recorded.
      some ({ s with dialogOpen := true }, refreshUser user)
  | Event.clickDelete user => some (openDeleteModal s user, [])
  | Event.clickBan user => some (openBanModal s user, [])
  | Event.changeScope user newScope => some (openScopeModal s user newScope, [])
  | Event.toggleActive user checked =>
      -- Switch onChange: updateUser(user, {active: checked}); no setState.
      some (s, updateUser user (PatchBody.active checked))
  | Event.editBanAmount v =>
      some ({ s with banInfo := { s.banInfo with
        expire := { s.banInfo.expire with amount := v } } }, [])
  | Event.editBanIndicator v =>
      some ({ s with banInfo := { s.banInfo with
        expire := { s.banInfo.expire with indicator := v } } }, [])
  | Event.detailSubmit => some ({ s with dialogOpen := false }, [])
  | Event.detailClose => some ({ s with dialogOpen := false }, [])
  | Event.deleteSubmit =>
      match s.tempUserForDialogs with
      | none => none
      | some user =>
          some ({ s with
            tempUserForDialogs := none
            deleteUserDialogOpen := false }, deleteUser user)
  | Event.deleteClose =>
      some ({ s with
        tempUserForDialogs := none
        deleteUserDialogOpen := false }, [])
  | Event.banSubmit reasonText =>
      -- submit(data): first setState merges the reason into banInfo, then the
      -- setState callback dispatches banUser with that merged record and
      -- resets everything.
      match s.tempUserForDialogs with
      | none => none
      | some user =>
          some ({ s with
            tempUserForDialogs := none
            banInfo := initialBanInfo
            banUserDialogOpen := false }, banUser user { s.banInfo with reason := reasonText })
  | Event.banClose =>
      some ({ s with
        tempUserForDialogs := none
        banInfo := initialBanInfo
        banUserDialogOpen := false }, [])
  | Event.scopeSubmit =>
      match s.tempUserForDialogs with
      | none => none
      | some user =>
          some ({ s with
            scope := none
            scopeDialogOpen := some false
            tempUserForDialogs := none }, updateUser user (PatchBody.scope s.scope))
  | Event.scopeClose =>
      some ({ s with
        scope := none
        scopeDialogOpen := some false
        tempUserForDialogs := none }, [])

/-- Which events the rendered markup can actually deliver in state `s`: the
row-level controls are reachable only while no modal is showing (an open
modal's backdrop blocks the table), and a dialog's text fields, submit and
cancel buttons exist only while that dialog's `isOpen` prop is truthy. -/
def uiEnabled (s : UsersState) (e : Event) : Bool :=
  match e with
  | Event.showDetails _ => allClosed s
  | Event.clickDelete _ => allClosed s
  | Event.clickBan _ => allClosed s
  | Event.changeScope _ _ => allClosed s
  | Event.toggleActive _ _ => allClosed s
  | Event.editBanAmount _ => s.banUserDialogOpen
  | Event.editBanIndicator _ => s.banUserDialogOpen
  | Event.detailSubmit => s.dialogOpen
  | Event.detailClose => s.dialogOpen
  | Event.deleteSubmit => s.deleteUserDialogOpen
  | Event.deleteClose => s.deleteUserDialogOpen
  | Event.banSubmit _ => s.banUserDialogOpen
  | Event.banClose => s.banUserDialogOpen
  | Event.scopeSubmit => scopeIsOpen s
  | Event.scopeClose => scopeIsOpen s

/-- States reachable from mount through events the rendered markup can
deliver (`uiEnabled`). -/
inductive UiReachable : UsersState → Prop where
  | init : UiReachable initialState
  | next (s s' : UsersState) (e : Event) (ds : List Dispatch)
      (hr : UiReachable s) (hen : uiEnabled s e = true)
      (hstep : step s e = some (s', ds)) : UiReachable s'

/-- States reachable when the triggers may fire in any state: the handlers
themselves contain no guard, so nothing in the component's own logic rules
these runs out. -/
inductive RawReachable : UsersState → Prop where
  | init : RawReachable initialState
  | next (s s' : UsersState) (e : Event) (ds : List Dispatch)
      (hr : RawReachable s) (hstep : step s e = some (s', ds)) : RawReachable s'

/-- Inductive invariant of the dialog state machine under UI-deliverable
events: at most one dialog is showing; the subject is present whenever the
delete, ban or scope dialog is showing, and absent whenever the detail dialog
is showing or everything is closed; the ban fields are at their defaults
whenever the ban dialog is not showing, and likewise the pending scope. -/
def Inv (s : UsersState) : Prop :=
  openCount s ≤ 1 ∧
  ((s.deleteUserDialogOpen || s.banUserDialogOpen || scopeIsOpen s) = true →
    s.tempUserForDialogs.isSome = true) ∧
  (s.dialogOpen = true → s.tempUserForDialogs = none) ∧
  (s.banUserDialogOpen = false → s.banInfo = initialBanInfo) ∧
  (scopeIsOpen s = false → s.scope = none) ∧
  (allClosed s = true → s.tempUserForDialogs = none)

/-- The submit events of the four dialogs. -/
def isSubmitEvent : Event → Bool
  | Event.detailSubmit => true
  | Event.deleteSubmit => true
  | Event.banSubmit _ => true
  | Event.scopeSubmit => true
  | _ => false

/-- The close/cancel events of the four dialogs. -/
def isCloseEvent : Event → Bool
  | Event.detailClose => true
  | Event.deleteClose => true
  | Event.banClose => true
  | Event.scopeClose => true
  | _ => false

/-- All dialogs closed and every transient field back at its default. -/
def pristineClosed (s : UsersState) : Prop :=
  allClosed s = true ∧ s.tempUserForDialogs = none ∧
    s.banInfo = initialBanInfo ∧ s.scope = none

/-- How many list-refresh dispatches (`rest.actions.users()`) a handler issues
directly. -/
def immediateRefreshCount (ds : List Dispatch) : Nat :=
  (ds.map Dispatch.action).countP (fun a => a == Action.users)

/-- How many list-refresh dispatches the completion callbacks of a handler's
dispatches issue. -/
def completionRefreshCount (ds : List Dispatch) : Nat :=
  (ds.map (fun d => d.onComplete.countP (fun a => a == Action.users))).sum

/-- The store's user list is affected only through dispatched REST actions:
applying a handler's dispatch batch to the list under any remote semantics. -/
def applyDispatches (applyDispatch : List User → Dispatch → List User)
    (userList : List User) (ds : List Dispatch) : List User :=
  ds.foldl applyDispatch userList

/-- Clicking the row's active `Switch` (rendered with `checked={user.active}`)
reports the opposite of the user's current flag. -/
def rowToggle (user : User) : Event := Event.toggleActive user (!user.active)

/-- First user of the spec's end-to-end scenario. -/
def sampleUser1 : User := ⟨1, "a@x.com", "user", false, ""⟩

/-- Second user of the spec's end-to-end scenario. -/
def sampleUser2 : User := ⟨2, "b@x.com", "admin", true, ""⟩

/-- The spec's end-to-end two-user list. -/
def sampleUsers : List User := [sampleUser1, sampleUser2]

/-- State after clicking the row delete button, then the row ban button,
without an intervening close: both flags end up set. -/
def doubleOpenState : UsersState :=
  openBanModal (openDeleteModal initialState sampleUser1) sampleUser1

/-- State after clicking show-details from the initial state. -/
def detailOpenState : UsersState := { initialState with dialogOpen := true }

/-- State after clicking the row delete button from the initial state. -/
def deleteOpenState : UsersState := openDeleteModal initialState sampleUser1

/-- State after clicking the row ban button from the initial state. -/
def banOpenState : UsersState := openBanModal initialState sampleUser1

/-- `banOpenState` after typing "5" into the expiry-amount field. -/
def banEditedState : UsersState :=
  { banOpenState with banInfo := { banOpenState.banInfo with
      expire := { banOpenState.banInfo.expire with amount := "5" } } }

theorem initial_inv : Inv initialState := by
  simp [Inv, initialState, openCount, allClosed, scopeIsOpen, initialBanInfo]

theorem step_preserves_inv (s s' : UsersState) (e : Event) (ds : List Dispatch)
    (hinv : Inv s) (hen : uiEnabled s e = true)
    (hstep : step s e = some (s', ds)) : Inv s' := by
  obtain ⟨d1, d2, d3, osm, sdo, tmp, sc, bi⟩ := s
  obtain ⟨h1, h2, h3, h4, h5, h6⟩ := hinv
  cases e with
  | showDetails user =>
      simp only [uiEnabled, allClosed, scopeIsOpen, Bool.and_eq_true,
        Bool.not_eq_true'] at hen
      obtain ⟨⟨⟨hd1, hd2⟩, hd3⟩, hsdo⟩ := hen
      subst hd1; subst hd2; subst hd3
      simp only [step, Option.some.injEq, Prod.mk.injEq] at hstep
      obtain ⟨hs', hds⟩ := hstep
      subst hs'
      simp_all [Inv, openCount, allClosed, scopeIsOpen, initialBanInfo]
  | clickDelete user =>
      simp only [uiEnabled, allClosed, scopeIsOpen, Bool.and_eq_true,
        Bool.not_eq_true'] at hen
      obtain ⟨⟨⟨hd1, hd2⟩, hd3⟩, hsdo⟩ := hen
      subst hd1; subst hd2; subst hd3
      simp only [step, openDeleteModal, Option.some.injEq, Prod.mk.injEq] at hstep
      obtain ⟨hs', hds⟩ := hstep
      subst hs'
      simp_all [Inv, openCount, allClosed, scopeIsOpen, initialBanInfo]
  | clickBan user =>
      simp only [uiEnabled, allClosed, scopeIsOpen, Bool.and_eq_true,
        Bool.not_eq_true'] at hen
      obtain ⟨⟨⟨hd1, hd2⟩, hd3⟩, hsdo⟩ := hen
      subst hd1; subst hd2; subst hd3
      simp only [step, openBanModal, Option.some.injEq, Prod.mk.injEq] at hstep
      obtain ⟨hs', hds⟩ := hstep
      subst hs'
      simp_all [Inv, openCount, allClosed, scopeIsOpen, initialBanInfo]
  | changeScope user newScope =>
      simp only [uiEnabled, allClosed, scopeIsOpen, Bool.and_eq_true,
        Bool.not_eq_true'] at hen
      obtain ⟨⟨⟨hd1, hd2⟩, hd3⟩, hsdo⟩ := hen
      subst hd1; subst hd2; subst hd3
      simp only [step, openScopeModal, Option.some.injEq, Prod.mk.injEq] at hstep
      obtain ⟨hs', hds⟩ := hstep
      subst hs'
      simp_all [Inv, openCount, allClosed, scopeIsOpen, initialBanInfo]
  | toggleActive user checked =>
      simp only [step, Option.some.injEq, Prod.mk.injEq] at hstep
      obtain ⟨hs', hds⟩ := hstep
      subst hs'
      exact ⟨h1, h2, h3, h4, h5, h6⟩
  | editBanAmount v =>
      simp only [uiEnabled] at hen
      subst hen
      simp only [step, Option.some.injEq, Prod.mk.injEq] at hstep
      obtain ⟨hs', hds⟩ := hstep
      subst hs'
      simp_all [Inv, openCount, allClosed, scopeIsOpen, initialBanInfo]
  | editBanIndicator v =>
      simp only [uiEnabled] at hen
      subst hen
      simp only [step, Option.some.injEq, Prod.mk.injEq] at hstep
      obtain ⟨hs', hds⟩ := hstep
      subst hs'
      simp_all [Inv, openCount, allClosed, scopeIsOpen, initialBanInfo]
  | detailSubmit =>
      simp only [uiEnabled] at hen
      subst hen
      simp only [step, Option.some.injEq, Prod.mk.injEq] at hstep
      obtain ⟨hs', hds⟩ := hstep
      subst hs'
      cases d2 <;> cases d3 <;> cases hsdo : sdo.getD false <;>
        simp_all [Inv, openCount, allClosed, scopeIsOpen, initialBanInfo]
  | detailClose =>
      simp only [uiEnabled] at hen
      subst hen
      simp only [step, Option.some.injEq, Prod.mk.injEq] at hstep
      obtain ⟨hs', hds⟩ := hstep
      subst hs'
      cases d2 <;> cases d3 <;> cases hsdo : sdo.getD false <;>
        simp_all [Inv, openCount, allClosed, scopeIsOpen, initialBanInfo]
  | deleteSubmit =>
      simp only [uiEnabled] at hen
      subst hen
      cases tmp with
      | none => simp [step] at hstep
      | some user =>
          simp only [step, Option.some.injEq, Prod.mk.injEq] at hstep
          obtain ⟨hs', hds⟩ := hstep
          subst hs'
          cases d1 <;> cases d3 <;> cases hsdo : sdo.getD false <;>
            simp_all [Inv, openCount, allClosed, scopeIsOpen, initialBanInfo]
  | deleteClose =>
      simp only [uiEnabled] at hen
      subst hen
      simp only [step, Option.some.injEq, Prod.mk.injEq] at hstep
      obtain ⟨hs', hds⟩ := hstep
      subst hs'
      cases d1 <;> cases d3 <;> cases hsdo : sdo.getD false <;>
        simp_all [Inv, openCount, allClosed, scopeIsOpen, initialBanInfo]
  | banSubmit reasonText =>
      simp only [uiEnabled] at hen
      subst hen
      cases tmp with
      | none => simp [step] at hstep
      | some user =>
          simp only [step, Option.some.injEq, Prod.mk.injEq] at hstep
          obtain ⟨hs', hds⟩ := hstep
          subst hs'
          cases d1 <;> cases d2 <;> cases hsdo : sdo.getD false <;>
            simp_all [Inv, openCount, allClosed, scopeIsOpen, initialBanInfo]
  | banClose =>
      simp only [uiEnabled] at hen
      subst hen
      simp only [step, Option.some.injEq, Prod.mk.injEq] at hstep
      obtain ⟨hs', hds⟩ := hstep
      subst hs'
      cases d1 <;> cases d2 <;> cases hsdo : sdo.getD false <;>
        simp_all [Inv, openCount, allClosed, scopeIsOpen, initialBanInfo]
  | scopeSubmit =>
      simp only [uiEnabled, scopeIsOpen] at hen
      cases tmp with
      | none => simp [step] at hstep
      | some user =>
          simp only [step, Option.some.injEq, Prod.mk.injEq] at hstep
          obtain ⟨hs', hds⟩ := hstep
          subst hs'
          cases d1 <;> cases d2 <;> cases d3 <;>
            simp_all [Inv, openCount, allClosed, scopeIsOpen, initialBanInfo]
  | scopeClose =>
      simp only [uiEnabled, scopeIsOpen] at hen
      simp only [step, Option.some.injEq, Prod.mk.injEq] at hstep
      obtain ⟨hs', hds⟩ := hstep
      subst hs'
      cases d1 <;> cases d2 <;> cases d3 <;>
        simp_all [Inv, openCount, allClosed, scopeIsOpen, initialBanInfo]

/-- Every UI-reachable state satisfies the invariant. -/
theorem uiReachable_inv (s : UsersState) (h : UiReachable s) : Inv s := by
  induction h with
  | init => exact initial_inv
  | next s s' e ds hr hen hstep ih => exact step_preserves_inv s s' e ds ih hen hstep

/-- Claim C1, counterexample: the claim says opening one dialog implicitly
closes any other, so no two open flags are ever simultaneously true.  The
handlers set only their own flag: firing the row delete trigger and then the
row ban trigger, with no intervening close, reaches a state where
`deleteUserDialogOpen` and `banUserDialogOpen` are both true. -/
theorem c1_two_dialogs_open_counterexample :
    RawReachable doubleOpenState ∧
    doubleOpenState.deleteUserDialogOpen = true ∧
    doubleOpenState.banUserDialogOpen = true :=
  ⟨RawReachable.next (openDeleteModal initialState sampleUser1) doubleOpenState
      (Event.clickBan sampleUser1) []
      (RawReachable.next initialState (openDeleteModal initialState sampleUser1)
        (Event.clickDelete sampleUser1) [] RawReachable.init rfl) rfl,
    rfl, rfl⟩

/-- Claim C1, amended: opening a dialog does not close the others, so
exclusivity holds only because each open trigger can fire solely from a state
with every dialog closed (an open modal's backdrop blocks the row controls);
in every state reachable that way at most one of the four open flags is
truthy. -/
theorem c1_at_most_one_dialog_open_amended (s : UsersState) (h : UiReachable s) :
    openCount s ≤ 1 :=
  (uiReachable_inv s h).1

/-- Witness for the amended C1 at a concrete reachable state with the ban
dialog open. -/
theorem c1_at_most_one_dialog_open_amended_witness :
    openCount banOpenState ≤ 1 :=
  c1_at_most_one_dialog_open_amended banOpenState
    (UiReachable.next initialState banOpenState (Event.clickBan sampleUser1) []
      UiReachable.init rfl rfl)

/-- Claim C2, counterexample: the claim says the subject is non-null whenever
any dialog is open, including Detail.  The show-details handler only
dispatches the detail fetch and sets `dialogOpen`; it never records the
subject, so right after the very first click the detail dialog is open with
`tempUserForDialogs` still null — in a state reachable even under the
one-dialog-at-a-time discipline. -/
theorem c2_detail_subject_null_counterexample :
    UiReachable detailOpenState ∧
    detailOpenState.dialogOpen = true ∧
    detailOpenState.tempUserForDialogs = none :=
  ⟨UiReachable.next initialState detailOpenState (Event.showDetails sampleUser1)
      (refreshUser sampleUser1) UiReachable.init rfl rfl,
    rfl, rfl⟩

/-- Claim C2, amended: in every UI-reachable state in which the delete, ban
or scope dialog is open the subject is non-null, and those three dialogs'
submit and close handlers all clear it; the Detail dialog neither records nor
clears the subject — its submit and close leave `tempUserForDialogs`
untouched. -/
theorem c2_subject_nonnull_amended (s : UsersState) (h : UiReachable s) :
    ((s.deleteUserDialogOpen || s.banUserDialogOpen || scopeIsOpen s) = true →
      s.tempUserForDialogs.isSome = true) ∧
    (∀ s' ds, step s Event.detailSubmit = some (s', ds) →
      s'.tempUserForDialogs = s.tempUserForDialogs) ∧
    (∀ s' ds, step s Event.detailClose = some (s', ds) →
      s'.tempUserForDialogs = s.tempUserForDialogs) ∧
    (∀ s' ds, step s Event.deleteSubmit = some (s', ds) → s'.tempUserForDialogs = none) ∧
    (∀ s' ds, step s Event.deleteClose = some (s', ds) → s'.tempUserForDialogs = none) ∧
    (∀ txt s' ds, step s (Event.banSubmit txt) = some (s', ds) →
      s'.tempUserForDialogs = none) ∧
    (∀ s' ds, step s Event.banClose = some (s', ds) → s'.tempUserForDialogs = none) ∧
    (∀ s' ds, step s Event.scopeSubmit = some (s', ds) → s'.tempUserForDialogs = none) ∧
    (∀ s' ds, step s Event.scopeClose = some (s', ds) → s'.tempUserForDialogs = none) := by
  refine ⟨(uiReachable_inv s h).2.1, ?_, ?_, ?_, ?_, ?_, ?_, ?_, ?_⟩
  · intro s' ds hstep
    simp only [step, Option.some.injEq, Prod.mk.injEq] at hstep
    obtain ⟨hs', -⟩ := hstep
    subst hs'
    rfl
  · intro s' ds hstep
    simp only [step, Option.some.injEq, Prod.mk.injEq] at hstep
    obtain ⟨hs', -⟩ := hstep
    subst hs'
    rfl
  · intro s' ds hstep
    cases htmp : s.tempUserForDialogs with
    | none => simp [step, htmp] at hstep
    | some user =>
        simp only [step, htmp, Option.some.injEq, Prod.mk.injEq] at hstep
        obtain ⟨hs', -⟩ := hstep
        subst hs'
        rfl
  · intro s' ds hstep
    simp only [step, Option.some.injEq, Prod.mk.injEq] at hstep
    obtain ⟨hs', -⟩ := hstep
    subst hs'
    rfl
  · intro txt s' ds hstep
    cases htmp : s.tempUserForDialogs with
    | none => simp [step, htmp] at hstep
    | some user =>
        simp only [step, htmp, Option.some.injEq, Prod.mk.injEq] at hstep
        obtain ⟨hs', -⟩ := hstep
        subst hs'
        rfl
  · intro s' ds hstep
    simp only [step, Option.some.injEq, Prod.mk.injEq] at hstep
    obtain ⟨hs', -⟩ := hstep
    subst hs'
    rfl
  · intro s' ds hstep
    cases htmp : s.tempUserForDialogs with
    | none => simp [step, htmp] at hstep
    | some user =>
        simp only [step, htmp, Option.some.injEq, Prod.mk.injEq] at hstep
        obtain ⟨hs', -⟩ := hstep
        subst hs'
        rfl
  · intro s' ds hstep
    simp only [step, Option.some.injEq, Prod.mk.injEq] at hstep
    obtain ⟨hs', -⟩ := hstep
    subst hs'
    rfl

/-- Witness for the amended C2 at a concrete reachable state with the delete
dialog open. -/
theorem c2_subject_nonnull_amended_witness :
    deleteOpenState.tempUserForDialogs.isSome = true :=
  (c2_subject_nonnull_amended deleteOpenState
    (UiReachable.next initialState deleteOpenState (Event.clickDelete sampleUser1) []
      UiReachable.init rfl rfl)).1 rfl

/-- Claim C3: the expiry token sent with a ban is the literal "x" when the
amount or the unit field is empty and the colon-joined concatenation
otherwise; in particular empty/empty gives exactly "x" and "5"/"days" gives
exactly "5:days". -/
theorem c3_ban_expiry_token (user : User) (reason amount indicator : String) :
    banUser user ⟨reason, ⟨amount, indicator⟩⟩ =
      [⟨Action.banUser user.id
          ⟨reason, if amount = "" ∨ indicator = "" then "x"
            else amount ++ ":" ++ indicator⟩,
        [Action.users]⟩] ∧
    banExpireToken ⟨reason, ⟨"", ""⟩⟩ = "x" ∧
    banExpireToken ⟨reason, ⟨"5", "days"⟩⟩ = "5:days" := by
  refine ⟨rfl, rfl, ?_⟩
  simp [banExpireToken]

/-- Claim C4: each mutating handler (delete, ban, patch — the latter covering
both the scope change and the active toggle) issues exactly one dispatch,
whose completion callback dispatches exactly one list refresh, and issues no
list refresh directly. -/
theorem c4_one_refresh_per_mutation (user : User) (banInfo : BanInfo)
    (update : PatchBody) :
    (deleteUser user).length = 1 ∧
    completionRefreshCount (deleteUser user) = 1 ∧
    immediateRefreshCount (deleteUser user) = 0 ∧
    (banUser user banInfo).length = 1 ∧
    completionRefreshCount (banUser user banInfo) = 1 ∧
    immediateRefreshCount (banUser user banInfo) = 0 ∧
    (updateUser user update).length = 1 ∧
    completionRefreshCount (updateUser user update) = 1 ∧
    immediateRefreshCount (updateUser user update) = 0 :=
  ⟨rfl, rfl, rfl, rfl, rfl, rfl, rfl, rfl, rfl⟩

/-- Claim C5: from any UI-reachable state with a dialog open, the dialog's
submit handler completes and the state it writes has every dialog closed and
every transient field (subject, ban reason, ban expiry amount and unit,
pending scope) back at its default — the handler computes this state from the
current state and the event alone, never from the outcome of the mutation it
dispatches (`step` does not take an outcome at all). -/
theorem c5_submit_closes_and_resets (s : UsersState) (e : Event)
    (h : UiReachable s) (hsub : isSubmitEvent e = true)
    (hen : uiEnabled s e = true) :
    (step s e).isSome = true ∧
    ∀ s' ds, step s e = some (s', ds) → pristineClosed s' := by
  have hinv := uiReachable_inv s h
  obtain ⟨d1, d2, d3, osm, sdo, tmp, sc, bi⟩ := s
  obtain ⟨h1, h2, h3, h4, h5, h6⟩ := hinv
  cases e <;> simp [isSubmitEvent] at hsub
  case detailSubmit =>
      simp only [uiEnabled] at hen
      subst hen
      refine ⟨rfl, ?_⟩
      intro s' ds hstep
      simp only [step, Option.some.injEq, Prod.mk.injEq] at hstep
      obtain ⟨hs', -⟩ := hstep
      subst hs'
      cases d2 <;> cases d3 <;> cases hsdo : sdo.getD false <;>
        simp_all [pristineClosed, allClosed, scopeIsOpen, openCount, initialBanInfo]
  case deleteSubmit =>
      simp only [uiEnabled] at hen
      subst hen
      cases htmp : tmp with
      | none => simp_all
      | some user =>
          refine ⟨rfl, ?_⟩
          intro s' ds hstep
          simp only [step, Option.some.injEq, Prod.mk.injEq] at hstep
          obtain ⟨hs', -⟩ := hstep
          subst hs'
          cases d1 <;> cases d3 <;> cases hsdo : sdo.getD false <;>
            simp_all [pristineClosed, allClosed, scopeIsOpen, openCount, initialBanInfo]
  case banSubmit reasonText =>
      simp only [uiEnabled] at hen
      subst hen
      cases htmp : tmp with
      | none => simp_all
      | some user =>
          refine ⟨rfl, ?_⟩
          intro s' ds hstep
          simp only [step, Option.some.injEq, Prod.mk.injEq] at hstep
          obtain ⟨hs', -⟩ := hstep
          subst hs'
          cases d1 <;> cases d2 <;> cases hsdo : sdo.getD false <;>
            simp_all [pristineClosed, allClosed, scopeIsOpen, openCount, initialBanInfo]
  case scopeSubmit =>
      simp only [uiEnabled, scopeIsOpen] at hen
      cases htmp : tmp with
      | none => simp_all [scopeIsOpen]
      | some user =>
          refine ⟨rfl, ?_⟩
          intro s' ds hstep
          simp only [step, Option.some.injEq, Prod.mk.injEq] at hstep
          obtain ⟨hs', -⟩ := hstep
          subst hs'
          cases d1 <;> cases d2 <;> cases d3 <;>
            simp_all [pristineClosed, allClosed, scopeIsOpen, openCount, initialBanInfo]

/-- Witness for C5: submitting the delete dialog from the concrete reachable
state that has it open lands back in the pristine initial state while the
delete call is dispatched. -/
theorem c5_submit_closes_and_resets_witness :
    pristineClosed initialState ∧
    step deleteOpenState Event.deleteSubmit = some (initialState, deleteUser sampleUser1) :=
  ⟨(c5_submit_closes_and_resets deleteOpenState Event.deleteSubmit
      (UiReachable.next initialState deleteOpenState (Event.clickDelete sampleUser1) []
        UiReachable.init rfl rfl) rfl rfl).2
      initialState (deleteUser sampleUser1) rfl,
    rfl⟩

/-- Claim C6: from any UI-reachable state with a dialog open, the dialog's
close/cancel handler completes, dispatches nothing (so the user list and
every user's fields are untouched under any remote semantics), and the state
it writes has every dialog closed and every transient field (subject, ban
reason, ban expiry amount and unit, pending scope) back at its default. -/
theorem c6_close_discards_without_mutation (s : UsersState) (e : Event)
    (h : UiReachable s) (hcl : isCloseEvent e = true) (hen : uiEnabled s e = true) :
    (step s e).isSome = true ∧
    ∀ s' ds, step s e = some (s', ds) →
      ds = [] ∧ pristineClosed s' ∧
      ∀ (applyDispatch : List User → Dispatch → List User) (userList : List User),
        applyDispatches applyDispatch userList ds = userList := by
  have hinv := uiReachable_inv s h
  obtain ⟨d1, d2, d3, osm, sdo, tmp, sc, bi⟩ := s
  obtain ⟨h1, h2, h3, h4, h5, h6⟩ := hinv
  cases e <;> simp [isCloseEvent] at hcl
  case detailClose =>
      simp only [uiEnabled] at hen
      subst hen
      refine ⟨rfl, ?_⟩
      intro s' ds hstep
      simp only [step, Option.some.injEq, Prod.mk.injEq] at hstep
      obtain ⟨hs', hds⟩ := hstep
      subst hs'
      subst hds
      refine ⟨rfl, ?_, fun _ _ => rfl⟩
      cases d2 <;> cases d3 <;> cases hsdo : sdo.getD false <;>
        simp_all [pristineClosed, allClosed, scopeIsOpen, openCount, initialBanInfo]
  case deleteClose =>
      simp only [uiEnabled] at hen
      subst hen
      refine ⟨rfl, ?_⟩
      intro s' ds hstep
      simp only [step, Option.some.injEq, Prod.mk.injEq] at hstep
      obtain ⟨hs', hds⟩ := hstep
      subst hs'
      subst hds
      refine ⟨rfl, ?_, fun _ _ => rfl⟩
      cases d1 <;> cases d3 <;> cases hsdo : sdo.getD false <;>
        simp_all [pristineClosed, allClosed, scopeIsOpen, openCount, initialBanInfo]
  case banClose =>
      simp only [uiEnabled] at hen
      subst hen
      refine ⟨rfl, ?_⟩
      intro s' ds hstep
      simp only [step, Option.some.injEq, Prod.mk.injEq] at hstep
      obtain ⟨hs', hds⟩ := hstep
      subst hs'
      subst hds
      refine ⟨rfl, ?_, fun _ _ => rfl⟩
      cases d1 <;> cases d2 <;> cases hsdo : sdo.getD false <;>
        simp_all [pristineClosed, allClosed, scopeIsOpen, openCount, initialBanInfo]
  case scopeClose =>
      simp only [uiEnabled, scopeIsOpen] at hen
      refine ⟨rfl, ?_⟩
      intro s' ds hstep
      simp only [step, Option.some.injEq, Prod.mk.injEq] at hstep
      obtain ⟨hs', hds⟩ := hstep
      subst hs'
      subst hds
      refine ⟨rfl, ?_, fun _ _ => rfl⟩
      cases d1 <;> cases d2 <;> cases d3 <;>
        simp_all [pristineClosed, allClosed, scopeIsOpen, openCount, initialBanInfo]

/-- Witness for C6: cancelling the ban dialog from the concrete reachable
state whose expiry-amount field holds "5" dispatches nothing and lands back
in the pristine initial state. -/
theorem c6_close_discards_without_mutation_witness :
    step banEditedState Event.banClose = some (initialState, []) ∧
    pristineClosed initialState ∧
    banEditedState.banInfo.expire.amount = "5" :=
  ⟨rfl,
    ((c6_close_discards_without_mutation banEditedState Event.banClose
        (UiReachable.next banOpenState banEditedState (Event.editBanAmount "5") []
          (UiReachable.next initialState banOpenState (Event.clickBan sampleUser1) []
            UiReachable.init rfl rfl) rfl rfl) rfl rfl).2
      initialState [] rfl).2.1,
    rfl⟩

/-- Claim C7: clicking the row's ban button while everything is closed opens
the ban dialog for that user with reason, expiry amount and expiry unit all
the empty string, and no other dialog open. -/
theorem c7_ban_click_from_closed (s : UsersState) (user : User)
    (h : UiReachable s) (hclosed : allClosed s = true) :
    step s (Event.clickBan user) = some (openBanModal s user, []) ∧
    (openBanModal s user).banUserDialogOpen = true ∧
    (openBanModal s user).tempUserForDialogs = some user ∧
    (openBanModal s user).banInfo.reason = "" ∧
    (openBanModal s user).banInfo.expire.amount = "" ∧
    (openBanModal s user).banInfo.expire.indicator = "" ∧
    (openBanModal s user).dialogOpen = false ∧
    (openBanModal s user).deleteUserDialogOpen = false ∧
    scopeIsOpen (openBanModal s user) = false := by
  have hinv := uiReachable_inv s h
  obtain ⟨d1, d2, d3, osm, sdo, tmp, sc, bi⟩ := s
  obtain ⟨h1, h2, h3, h4, h5, h6⟩ := hinv
  simp only [allClosed, scopeIsOpen, Bool.and_eq_true, Bool.not_eq_true'] at hclosed
  obtain ⟨⟨⟨hd1, hd2⟩, hd3⟩, hsdo⟩ := hclosed
  subst hd1; subst hd2; subst hd3
  have hbi : bi = initialBanInfo := h4 rfl
  subst hbi
  exact ⟨rfl, rfl, rfl, rfl, rfl, rfl, rfl, rfl, hsdo⟩

/-- Witness for C7 at the initial state with the first sample user. -/
theorem c7_ban_click_from_closed_witness :
    step initialState (Event.clickBan sampleUser1) =
      some (openBanModal initialState sampleUser1, []) ∧
    (openBanModal initialState sampleUser1).banUserDialogOpen = true ∧
    (openBanModal initialState sampleUser1).tempUserForDialogs = some sampleUser1 ∧
    (openBanModal initialState sampleUser1).banInfo.reason = "" ∧
    (openBanModal initialState sampleUser1).banInfo.expire.amount = "" ∧
    (openBanModal initialState sampleUser1).banInfo.expire.indicator = "" ∧
    (openBanModal initialState sampleUser1).dialogOpen = false ∧
    (openBanModal initialState sampleUser1).deleteUserDialogOpen = false ∧
    scopeIsOpen (openBanModal initialState sampleUser1) = false :=
  c7_ban_click_from_closed initialState sampleUser1 UiReachable.init rfl

/-- Claim C8: toggling a row's active switch dispatches exactly
`patch(user, {active: checked})` whose completion callback refreshes the
list, and returns the local dialog state unchanged (the handler performs no
`setState`); concretely, on the spec's two-user list, toggling user 1 (whose
switch renders `active = false`) dispatches `patch(1, {active: true})` then a
refresh. -/
theorem c8_toggle_active_dispatch_and_frame (s : UsersState) (user : User)
    (checked : Bool) :
    step s (Event.toggleActive user checked) =
      some (s, [⟨Action.userDetailsPatch user.id (PatchBody.active checked),
        [Action.users]⟩]) ∧
    updateUser user (PatchBody.active checked) =
      [⟨Action.userDetailsPatch user.id (PatchBody.active checked), [Action.users]⟩] ∧
    step initialState (rowToggle sampleUser1) =
      some (initialState,
        [⟨Action.userDetailsPatch 1 (PatchBody.active true), [Action.users]⟩]) ∧
    sampleUsers = [sampleUser1, sampleUser2] :=
  ⟨rfl, rfl, rfl, rfl⟩

/-- Claim C9: on mount the machine is fully closed: the three boolean flags
are false, `scopeDialogOpen` is absent (undefined, hence falsy for the scope
dialog's `isOpen` prop), the subject is null, and the pending scope and all
ban fields are at their empty defaults. -/
theorem c9_initial_state_pristine :
    initialState.dialogOpen = false ∧
    initialState.deleteUserDialogOpen = false ∧
    initialState.banUserDialogOpen = false ∧
    initialState.scopeDialogOpen = none ∧
    scopeIsOpen initialState = false ∧
    initialState.openScopeModal = false ∧
    initialState.tempUserForDialogs = none ∧
    initialState.scope = none ∧
    initialState.banInfo.reason = "" ∧
    initialState.banInfo.expire.amount = "" ∧
    initialState.banInfo.expire.indicator = "" ∧
    allClosed initialState = true :=
  ⟨rfl, rfl, rfl, rfl, rfl, rfl, rfl, rfl, rfl, rfl, rfl, rfl⟩

/-- Claim C10: mounting dispatches exactly one action, the user-list refresh,
and its completion callback dispatches nothing further. -/
theorem c10_mount_dispatches_one_refresh :
    componentDidMount = [⟨Action.users, []⟩] ∧
    componentDidMount = refresh ∧
    componentDidMount.length = 1 ∧
    immediateRefreshCount componentDidMount = 1 ∧
    completionRefreshCount componentDidMount = 0 :=
  ⟨rfl, rfl, rfl, rfl, rfl⟩

end FriendshipAdmin
